import Mathlib

/-!
Verification of the rbus-datamodels typed attribute registry.

Shallow embedding of `src/rbus-datamodels.c`: the value model, the
schema-driven loader (`loadDataModelsFromJson`), the TTL-memoized memory
snapshot (`update_memory_cache` and the memory getters, Linux branch), and
the name-indexed default get/set dispatch (`getHandler`, `setHandler`).

Modelling conventions:
* C machine integers are `Int`/`Nat`; where the C code can wrap (the
  `uint64` subtraction in `update_memory_cache`, the `(unsigned int)` casts
  in the memory getters) the wrap is written explicitly as `% 2^w`.
* cJSON numbers are C `double`s; they are embedded as `ℚ` carrying the
  exact value of the double.  Where the C code compares a double against an
  integer bound, the bound is the *double-promoted* bound (e.g. `INT64_MAX`
  promotes to `2^63`, `UINT64_MAX` to `2^64`); this is noted at each site.
* `float`/`double` payloads are carried as `ℚ`.  The program never does
  arithmetic on them (they are stored and read back verbatim), except for
  the double-to-float narrowing in the loader, which is not modelled; no
  theorem below depends on a stored float payload's numeric value.
* Allocation (`malloc`/`strdup`) is modelled by a boolean oracle
  `allocOk`: `true` means every allocation in the modelled call succeeds,
  `false` means the first allocation fails.
* A C string pointer that may be `NULL` is an `Option String`
  (`none` = `NULL`).
-/

deriving instance DecidableEq for Except

/-- The `ValueType` enum of the source (type codes 0–10 of the schema). -/
inductive ValueType where
  | TYPE_STRING
  | TYPE_INT
  | TYPE_UINT
  | TYPE_BOOL
  | TYPE_DATETIME
  | TYPE_BASE64
  | TYPE_LONG
  | TYPE_ULONG
  | TYPE_FLOAT
  | TYPE_DOUBLE
  | TYPE_BYTE
deriving DecidableEq, Repr

/-- The rbus error codes this program returns from its handlers. -/
inductive rbusError_t where
  | RBUS_ERROR_SUCCESS
  | RBUS_ERROR_INVALID_INPUT
  | RBUS_ERROR_OUT_OF_RESOURCES
  | RBUS_ERROR_BUS_ERROR
deriving DecidableEq, Repr

/-- A bus-level `rbusValue_t`: a value tagged with one of the rbus types the
program exchanges over the bus.  The `rbusDateTime` payload of an
`RBUS_DATETIME` value is modelled by its textual rendering, and an
`RBUS_BYTES`/base64 payload likewise; only their type tags and textual
renderings are observable in this program. -/
inductive RValue where
  | rString (s : String)
  | rInt32 (n : Int)
  | rUInt32 (n : Nat)
  | rBool (b : Bool)
  | rDateTime (s : String)
  | rBase64 (s : String)
  | rInt64 (n : Int)
  | rUInt64 (n : Nat)
  | rSingle (q : ℚ)
  | rDouble (q : ℚ)
  | rByte (n : Nat)
deriving DecidableEq, Repr

/-- The `value` union of a `DataModel` entry.  The constructor records which
union member was last written; `strVal` is an `Option` because the C field
is a pointer that the set dispatch can leave `NULL`. -/
inductive DMValue where
  | strVal (s : Option String)
  | intVal (n : Int)
  | uintVal (n : Nat)
  | boolVal (b : Bool)
  | longVal (n : Int)
  | ulongVal (n : Nat)
  | floatVal (q : ℚ)
  | doubleVal (q : ℚ)
  | byteVal (n : Nat)
deriving DecidableEq, Repr

/-- Identifies which of the eight computed-provider functions a built-in
entry's `getHandler` field points to (all schema-declared entries have
`NULL` here). -/
inductive GetterId where
  | serialNumber
  | systemTime
  | uptime
  | macAddress
  | memoryTotal
  | memoryUsed
  | memoryFree
  | localTime
deriving DecidableEq, Repr

/-- The `DataModel` struct: one registry entry.  No entry in this program
ever has a custom set handler (every `.setHandler` in the source is
`NULL`), so that field is `Option Unit`, always `none`. -/
structure DataModel where
  name : String
  type : ValueType
  value : DMValue
  getHandler : Option GetterId
  setHandler : Option Unit
deriving DecidableEq, Repr

/-- The registry: `models` is the `g_dataModels` array
(`g_totalDataModels` entries = schema-declared entries followed by the
built-in copies) and `numDeclared` is `g_numDataModels`, the count of
schema-declared entries. -/
structure Registry where
  models : List DataModel
  numDeclared : Nat
deriving DecidableEq, Repr

/-- Reading a union member that was last written as a *different* member is
unspecified in C; these accessors return the member when it is the one
stored and a zero default otherwise.  No registry state constructed by the
loader or by the set dispatch is ever read at a mismatched member, so no
theorem depends on the default branches. -/
def DMValue.strv : DMValue → Option String
  | .strVal s => s
  | _ => none

def DMValue.intv : DMValue → Int
  | .intVal n => n
  | _ => 0

def DMValue.uintv : DMValue → Nat
  | .uintVal n => n
  | _ => 0

def DMValue.boolv : DMValue → Bool
  | .boolVal b => b
  | _ => false

def DMValue.longv : DMValue → Int
  | .longVal n => n
  | _ => 0

def DMValue.ulongv : DMValue → Nat
  | .ulongVal n => n
  | _ => 0

def DMValue.floatv : DMValue → ℚ
  | .floatVal q => q
  | _ => 0

def DMValue.doublev : DMValue → ℚ
  | .doubleVal q => q
  | _ => 0

def DMValue.bytev : DMValue → Nat
  | .byteVal n => n
  | _ => 0

/-- `rbusValue_ToString` of the external rbus library renders any value as
text.  A string-like value renders as its own text; integral values render
in decimal; booleans as `true`/`false`.  (The rendering of float payloads
by `%f` is not textually modelled — no theorem exercises it.)  The C call
can also return `NULL` on allocation failure; the program silently skips
the store in that case, which no claim exercises, so the model is total. -/
def rbusValue_ToString : RValue → String
  | .rString s => s
  | .rInt32 n => toString n
  | .rUInt32 n => toString n
  | .rBool b => if b then "true" else "false"
  | .rDateTime s => s
  | .rBase64 s => s
  | .rInt64 n => toString n
  | .rUInt64 n => toString n
  | .rSingle q => toString q
  | .rDouble q => toString q
  | .rByte n => toString n

/-- The typed accessors `rbusValue_GetInt32` etc. of the external rbus
library.  The program calls each of them without checking the value's type
first; on a type mismatch the C result is an unspecified union read,
modelled here as the type's zero.  No theorem below depends on the
mismatch branches (every theorem about a mismatched set constrains only
the returned error code or uses the well-defined `rbusValue_ToString`
path). -/
def rbusValue_GetInt32 : RValue → Int
  | .rInt32 n => n
  | _ => 0

def rbusValue_GetUInt32 : RValue → Nat
  | .rUInt32 n => n
  | _ => 0

def rbusValue_GetBoolean : RValue → Bool
  | .rBool b => b
  | _ => false

def rbusValue_GetInt64 : RValue → Int
  | .rInt64 n => n
  | _ => 0

def rbusValue_GetUInt64 : RValue → Nat
  | .rUInt64 n => n
  | _ => 0

def rbusValue_GetSingle : RValue → ℚ
  | .rSingle q => q
  | _ => 0

def rbusValue_GetDouble : RValue → ℚ
  | .rDouble q => q
  | _ => 0

def rbusValue_GetByte : RValue → Nat
  | .rByte n => n
  | _ => 0

/-- The body of the `getHandler` loop once an entry has matched: the
`switch (g_dataModels[i].type)` that builds the outgoing `rbusValue_t`.
String-like types (`TYPE_STRING`, `TYPE_DATETIME`, `TYPE_BASE64`) all go
through `rbusValue_SetString`, so they produce an `RBUS_STRING`-typed
value. -/
def dmToRValue (dm : DataModel) : RValue :=
  match dm.type with
  | .TYPE_STRING => .rString (dm.value.strv.getD "")
  | .TYPE_DATETIME => .rString (dm.value.strv.getD "")
  | .TYPE_BASE64 => .rString (dm.value.strv.getD "")
  | .TYPE_INT => .rInt32 dm.value.intv
  | .TYPE_UINT => .rUInt32 dm.value.uintv
  | .TYPE_BOOL => .rBool dm.value.boolv
  | .TYPE_LONG => .rInt64 dm.value.longv
  | .TYPE_ULONG => .rUInt64 dm.value.ulongv
  | .TYPE_FLOAT => .rSingle dm.value.floatv
  | .TYPE_DOUBLE => .rDouble dm.value.doublev
  | .TYPE_BYTE => .rByte dm.value.bytev

/-- The search loop of `getHandler`: scan the first `fuel` entries of the
array for the first entry whose name matches (`strcmp == 0`). -/
def findDataModel : Nat → List DataModel → String → Option DataModel
  | 0, _, _ => none
  | _ + 1, [], _ => none
  | fuel + 1, dm :: rest, n =>
    if dm.name == n then some dm else findDataModel fuel rest n

/-- `getHandler`: the default get dispatch.  It scans only the first
`g_numDataModels` (schema-declared) entries of `g_dataModels`; a match
returns the stored value rendered per the entry's type, no match returns
`RBUS_ERROR_INVALID_INPUT`. -/
def getHandler (reg : Registry) (name : String) : Except rbusError_t RValue :=
  match findDataModel reg.numDeclared reg.models name with
  | some dm => Except.ok (dmToRValue dm)
  | none => Except.error .RBUS_ERROR_INVALID_INPUT

/-- The body of the `setHandler` loop once an entry has matched: the
`switch (g_dataModels[i].type)` that overwrites the stored union from the
incoming value.  For string-like types the C code first `free`s the old
buffer and then `strdup`s the rendered text: on allocation failure
(`allocOk = false`) the entry is left with a `NULL` (`none`) payload and
`RBUS_ERROR_OUT_OF_RESOURCES` is returned.  All other types copy the typed
accessor's result and return `RBUS_ERROR_SUCCESS`.  No branch compares the
incoming value's type with the entry's type. -/
def setModel (allocOk : Bool) (dm : DataModel) (v : RValue) :
    rbusError_t × DataModel :=
  match dm.type with
  | .TYPE_STRING | .TYPE_DATETIME | .TYPE_BASE64 =>
    if allocOk then
      (.RBUS_ERROR_SUCCESS,
        { dm with value := .strVal (some (rbusValue_ToString v)) })
    else
      (.RBUS_ERROR_OUT_OF_RESOURCES, { dm with value := .strVal none })
  | .TYPE_INT =>
    (.RBUS_ERROR_SUCCESS, { dm with value := .intVal (rbusValue_GetInt32 v) })
  | .TYPE_UINT =>
    (.RBUS_ERROR_SUCCESS, { dm with value := .uintVal (rbusValue_GetUInt32 v) })
  | .TYPE_BOOL =>
    (.RBUS_ERROR_SUCCESS, { dm with value := .boolVal (rbusValue_GetBoolean v) })
  | .TYPE_LONG =>
    (.RBUS_ERROR_SUCCESS, { dm with value := .longVal (rbusValue_GetInt64 v) })
  | .TYPE_ULONG =>
    (.RBUS_ERROR_SUCCESS, { dm with value := .ulongVal (rbusValue_GetUInt64 v) })
  | .TYPE_FLOAT =>
    (.RBUS_ERROR_SUCCESS, { dm with value := .floatVal (rbusValue_GetSingle v) })
  | .TYPE_DOUBLE =>
    (.RBUS_ERROR_SUCCESS, { dm with value := .doubleVal (rbusValue_GetDouble v) })
  | .TYPE_BYTE =>
    (.RBUS_ERROR_SUCCESS, { dm with value := .byteVal (rbusValue_GetByte v) })

/-- The search loop of `setHandler` over the whole array: update the first
entry whose name matches and return its code; `RBUS_ERROR_INVALID_INPUT`
when no entry matches. -/
def setList (allocOk : Bool) (name : String) (v : RValue) :
    List DataModel → rbusError_t × List DataModel
  | [] => (.RBUS_ERROR_INVALID_INPUT, [])
  | dm :: rest =>
    if dm.name == name then
      let r := setModel allocOk dm v
      (r.1, r.2 :: rest)
    else
      let r := setList allocOk name v rest
      (r.1, dm :: r.2)

/-- `setHandler`: the default set dispatch.  Unlike `getHandler` it scans
all `g_totalDataModels` entries (declared *and* built-in). -/
def setHandler (allocOk : Bool) (reg : Registry) (name : String)
    (v : RValue) : rbusError_t × Registry :=
  let r := setList allocOk name v reg.models
  (r.1, { reg with models := r.2 })

/-! ## The TTL-memoized memory snapshot -/

/-- `MEMORY_CACHE_TIMEOUT`: the 5-second TTL of the memory snapshot. -/
def MEMORY_CACHE_TIMEOUT : Int := 5

/-- The `MemoryCache` struct (`g_mem_cache`): kilobyte counters are
`uint64_t`, `last_updated` is a `time_t` (an integer count of seconds). -/
structure MemoryCache where
  total : Nat
  free : Nat
  used : Nat
  last_updated : Int
deriving DecidableEq, Repr

/-- The counters scanned out of `/proc/meminfo` (Linux branch of
`update_memory_cache`).  A line that is absent leaves its counter at the
initial `0`. -/
structure MemInfo where
  memTotal : Nat
  memFree : Nat
  buffers : Nat
  cached : Nat
  sreclaimable : Nat
deriving DecidableEq, Repr

/-- `update_memory_cache` (Linux branch), with the ambient state passed
explicitly: `cache` is `g_mem_cache` on entry, `now` is `time(NULL)`, and
`query` is the outcome of opening and scanning `/proc/meminfo` (`none` =
`fopen` failed).  Returns the C `bool` result, the cache on exit, and an
instrumentation flag recording whether control reached the OS query (the
`fopen`) at all.  The `used` counter is a `uint64_t` subtraction, hence
the explicit wrap `% 2^64`. -/
def update_memory_cache (cache : MemoryCache) (now : Int)
    (query : Option MemInfo) : Bool × MemoryCache × Bool :=
  if cache.last_updated + MEMORY_CACHE_TIMEOUT > now then
    (true, cache, false)
  else
    match query with
    | none => (false, cache, true)
    | some m =>
      if m.memTotal = 0 ∨ m.memFree = 0 then
        (false, cache, true)
      else
        let fr := m.memFree + m.buffers + m.cached + m.sreclaimable
        let usd := (((m.memTotal : Int) - (fr : Int)) % (18446744073709551616 : Int)).toNat
        (true,
          { total := m.memTotal, free := fr, used := usd, last_updated := now },
          true)

/-- `get_memory_free`: refresh the snapshot if stale, then publish the
`free` counter through `rbusValue_SetUInt32` — the `(unsigned int)` cast
of the `uint64_t` counter is the explicit `% 2^32`.  Result: the handler's
outcome, the cache on exit, and whether an OS query was performed. -/
def get_memory_free (cache : MemoryCache) (now : Int)
    (query : Option MemInfo) : Except rbusError_t RValue × MemoryCache × Bool :=
  let r := update_memory_cache cache now query
  if r.1 then
    (Except.ok (.rUInt32 (r.2.1.free % 4294967296)), r.2.1, r.2.2)
  else
    (Except.error .RBUS_ERROR_BUS_ERROR, r.2.1, r.2.2)

/-- `get_memory_used`, structured exactly like `get_memory_free`. -/
def get_memory_used (cache : MemoryCache) (now : Int)
    (query : Option MemInfo) : Except rbusError_t RValue × MemoryCache × Bool :=
  let r := update_memory_cache cache now query
  if r.1 then
    (Except.ok (.rUInt32 (r.2.1.used % 4294967296)), r.2.1, r.2.2)
  else
    (Except.error .RBUS_ERROR_BUS_ERROR, r.2.1, r.2.2)

/-- `get_memory_total`, structured exactly like `get_memory_free`. -/
def get_memory_total (cache : MemoryCache) (now : Int)
    (query : Option MemInfo) : Except rbusError_t RValue × MemoryCache × Bool :=
  let r := update_memory_cache cache now query
  if r.1 then
    (Except.ok (.rUInt32 (r.2.1.total % 4294967296)), r.2.1, r.2.2)
  else
    (Except.error .RBUS_ERROR_BUS_ERROR, r.2.1, r.2.2)

/-! ## The schema loader -/

/-- The cJSON tree handed to `loadDataModelsFromJson` after parsing.
A JSON number is a C `double`; it is embedded as the exact rational value
of that double. -/
inductive CJson where
  | jString (s : String)
  | jNumber (q : ℚ)
  | jTrue
  | jFalse
  | jNull
  | jArray (items : List CJson)
  | jObject (fields : List (String × CJson))
deriving Repr

def cJSON_IsString : CJson → Bool
  | .jString _ => true
  | _ => false

def cJSON_IsNumber : CJson → Bool
  | .jNumber _ => true
  | _ => false

def cJSON_IsTrue : CJson → Bool
  | .jTrue => true
  | _ => false

def cJSON_IsFalse : CJson → Bool
  | .jFalse => true
  | _ => false

/-- cJSON's per-byte `tolower` (ASCII). -/
def tolowerChar (c : Char) : Char :=
  if 'A' ≤ c ∧ c ≤ 'Z' then Char.ofNat (c.toNat + 32) else c

/-- cJSON's `case_insensitive_strcmp`, as an equality test. -/
def ciEq (a b : String) : Bool :=
  a.data.map tolowerChar == b.data.map tolowerChar

/-- `cJSON_GetObjectItem`: first field whose key matches
case-insensitively (cJSON's plain lookup is case-insensitive); `NULL`
(`none`) on a non-object or a missing key. -/
def cJSON_GetObjectItem (item : CJson) (key : String) : Option CJson :=
  match item with
  | .jObject fields =>
    (fields.find? (fun f => ciEq f.1 key)).map (fun f => f.2)
  | _ => none

/-- A C cast of a (finite) `double` to an integer type truncates toward
zero; on a rational `num/den` that is exactly `Int.div num den`
(T-division). -/
def truncQ (q : ℚ) : Int := Int.tdiv q.num (q.den : Int)

/-- The `(ValueType)(int)valuedouble` conversion after the `[0,10]` range
check of the loader. -/
def typeOfCode : Nat → ValueType
  | 0 => .TYPE_STRING
  | 1 => .TYPE_INT
  | 2 => .TYPE_UINT
  | 3 => .TYPE_BOOL
  | 4 => .TYPE_DATETIME
  | 5 => .TYPE_BASE64
  | 6 => .TYPE_LONG
  | 7 => .TYPE_ULONG
  | 8 => .TYPE_FLOAT
  | 9 => .TYPE_DOUBLE
  | _ => .TYPE_BYTE

/-- The distinct failure exits of `loadDataModelsFromJson` (the C function
returns `false` with a distinct diagnostic for each). -/
inductive ConfigError where
  | notArray
  | noDataModels
  | itemNotObject
  | invalidDeclaration
  | outOfRange
  | resource
deriving DecidableEq, Repr

/-- `strdup` under the allocation oracle. -/
def strdupM (allocOk : Bool) (s : String) : Option String :=
  if allocOk then some s else none

/-- The per-record `switch (type)` of the loader: build the entry's stored
value from the optional `value` field.  A missing or type-mismatched
`value` silently degrades to the kind's zero/empty/false default.  The
integer and byte kinds range-check the double `value`; the bounds are the
C comparisons' double-promoted bounds — `INT64_MAX` promotes to `2^63` and
`UINT64_MAX` to `2^64` (the other bounds are exactly representable).  The
float and double kinds perform no range check; the double-to-float
narrowing of `TYPE_FLOAT` is not modelled (the rational is stored as-is),
which no theorem depends on. -/
def loadValue (allocOk : Bool) (nm : String) (t : ValueType)
    (value_obj : Option CJson) : Except ConfigError DataModel :=
  match t with
  | .TYPE_STRING | .TYPE_DATETIME | .TYPE_BASE64 =>
    let s := match value_obj with
      | some (.jString s) => s
      | _ => ""
    match strdupM allocOk s with
    | some s2 => .ok ⟨nm, t, .strVal (some s2), none, none⟩
    | none => .error .resource
  | .TYPE_INT =>
    match value_obj with
    | some (.jNumber q) =>
      if -(2147483648 : ℚ) ≤ q ∧ q ≤ (2147483647 : ℚ) then
        .ok ⟨nm, t, .intVal (truncQ q), none, none⟩
      else .error .outOfRange
    | _ => .ok ⟨nm, t, .intVal 0, none, none⟩
  | .TYPE_UINT =>
    match value_obj with
    | some (.jNumber q) =>
      if (0 : ℚ) ≤ q ∧ q ≤ (4294967295 : ℚ) then
        .ok ⟨nm, t, .uintVal (truncQ q).toNat, none, none⟩
      else .error .outOfRange
    | _ => .ok ⟨nm, t, .uintVal 0, none, none⟩
  | .TYPE_BOOL =>
    let b := match value_obj with
      | some .jTrue => true
      | _ => false
    .ok ⟨nm, t, .boolVal b, none, none⟩
  | .TYPE_LONG =>
    match value_obj with
    | some (.jNumber q) =>
      if -(9223372036854775808 : ℚ) ≤ q ∧ q ≤ (9223372036854775808 : ℚ) then
        .ok ⟨nm, t, .longVal (truncQ q), none, none⟩
      else .error .outOfRange
    | _ => .ok ⟨nm, t, .longVal 0, none, none⟩
  | .TYPE_ULONG =>
    match value_obj with
    | some (.jNumber q) =>
      if (0 : ℚ) ≤ q ∧ q ≤ (18446744073709551616 : ℚ) then
        .ok ⟨nm, t, .ulongVal (truncQ q).toNat, none, none⟩
      else .error .outOfRange
    | _ => .ok ⟨nm, t, .ulongVal 0, none, none⟩
  | .TYPE_FLOAT =>
    match value_obj with
    | some (.jNumber q) => .ok ⟨nm, t, .floatVal q, none, none⟩
    | _ => .ok ⟨nm, t, .floatVal 0, none, none⟩
  | .TYPE_DOUBLE =>
    match value_obj with
    | some (.jNumber q) => .ok ⟨nm, t, .doubleVal q, none, none⟩
    | _ => .ok ⟨nm, t, .doubleVal 0, none, none⟩
  | .TYPE_BYTE =>
    match value_obj with
    | some (.jNumber q) =>
      if (0 : ℚ) ≤ q ∧ q ≤ (255 : ℚ) then
        .ok ⟨nm, t, .byteVal (truncQ q).toNat, none, none⟩
      else .error .outOfRange
    | _ => .ok ⟨nm, t, .byteVal 0, none, none⟩

/-- One iteration of the loader's per-record loop: the record must be an
object; `name` must be a string and `type` a number in `[0, 10]`
(`valuedouble` comparisons, so a fractional code like `2.5` passes and
truncates); the name is `strncpy`ed into a 255-byte field (modelled as
keeping the first 255 characters); then the value is built per kind. -/
def loadItem (allocOk : Bool) (item : CJson) : Except ConfigError DataModel :=
  match item with
  | .jObject _ =>
    match cJSON_GetObjectItem item "name", cJSON_GetObjectItem item "type" with
    | some (.jString name), some (.jNumber tq) =>
      if tq < 0 ∨ 10 < tq then .error .invalidDeclaration
      else
        loadValue allocOk ⟨name.data.take 255⟩ (typeOfCode (truncQ tq).toNat)
          (cJSON_GetObjectItem item "value")
    | _, _ => .error .invalidDeclaration
  | _ => .error .itemNotObject

/-- The loader's main loop over the schema array, short-circuiting on the
first failing record (the C code frees the whole `g_dataModels` array and
returns `false`, so a failure yields no registry at all). -/
def loadItems (allocOk : Bool) : List CJson → Except ConfigError (List DataModel)
  | [] => .ok []
  | item :: rest =>
    match loadItem allocOk item with
    | .error e => .error e
    | .ok dm =>
      match loadItems allocOk rest with
      | .error e => .error e
      | .ok dms => .ok (dm :: dms)

/-- The static `gDataModels` template: the eight built-in computed
attributes, in declaration order. -/
def gDataModels : List DataModel :=
  [⟨"Device.DeviceInfo.SerialNumber", .TYPE_STRING, .strVal (some "unknown"),
      some .serialNumber, none⟩,
   ⟨"Device.DeviceInfo.X_RDKCENTRAL-COM_SystemTime", .TYPE_STRING,
      .strVal (some "unknown"), some .systemTime, none⟩,
   ⟨"Device.DeviceInfo.UpTime", .TYPE_STRING, .strVal (some "unknown"),
      some .uptime, none⟩,
   ⟨"Device.DeviceInfo.X_COMCAST-COM_CM_MAC", .TYPE_STRING,
      .strVal (some "unknown"), some .macAddress, none⟩,
   ⟨"Device.DeviceInfo.MemoryStatus.Total", .TYPE_UINT, .uintVal 0,
      some .memoryTotal, none⟩,
   ⟨"Device.DeviceInfo.MemoryStatus.Used", .TYPE_UINT, .uintVal 0,
      some .memoryUsed, none⟩,
   ⟨"Device.DeviceInfo.MemoryStatus.Free", .TYPE_UINT, .uintVal 0,
      some .memoryFree, none⟩,
   ⟨"Device.Time.CurrentLocalTime", .TYPE_DATETIME, .strVal (some "unknown"),
      some .localTime, none⟩]

/-- The loader's second loop: copy one built-in template entry into the
registry; string-like payloads are `strdup`ed (allocation failure aborts
the whole load with the resource diagnostic). -/
def copyBuiltin (allocOk : Bool) (dm : DataModel) :
    Except ConfigError DataModel :=
  match dm.type with
  | .TYPE_STRING | .TYPE_DATETIME | .TYPE_BASE64 =>
    match strdupM allocOk (dm.value.strv.getD "") with
    | some s => .ok { dm with value := .strVal (some s) }
    | none => .error .resource
  | _ => .ok dm

def copyBuiltins (allocOk : Bool) :
    List DataModel → Except ConfigError (List DataModel)
  | [] => .ok []
  | dm :: rest =>
    match copyBuiltin allocOk dm with
    | .error e => .error e
    | .ok d =>
      match copyBuiltins allocOk rest with
      | .error e => .error e
      | .ok ds => .ok (d :: ds)

/-- `loadDataModelsFromJson`, from the parsed cJSON root onward (the file
read and the parse are upstream; a parse failure returns `false` before
this logic runs).  The root must be a non-empty array; the
`g_dataModels` array is then `malloc`ed (the allocation oracle), each
record is loaded in file order, and the built-in templates are appended.
On success the registry holds the declared entries followed by the
built-ins, with `numDeclared` the schema-array length; on any failure the
C code frees the array and nulls `g_dataModels`, so an error carries no
registry — it is never partially populated. -/
def loadDataModelsFromJson (allocOk : Bool) (root : CJson) :
    Except ConfigError Registry :=
  match root with
  | .jArray items =>
    if items.length = 0 then .error .noDataModels
    else if !allocOk then .error .resource
    else
      match loadItems allocOk items with
      | .error e => .error e
      | .ok declared =>
        match copyBuiltins allocOk gDataModels with
        | .error e => .error e
        | .ok builtins =>
          .ok { models := declared ++ builtins, numDeclared := items.length }
  | _ => .error .notArray

/-! ## Claim-statement helpers

These definitions do not model code; they only formalise the vocabulary
the specification's claims are stated in ("a value of the attribute's
kind", "a string-kind attribute", "the kind's default", "an out-of-range
literal"). -/

/-- A bus value is *of* an attribute kind when its rbus type tag is the
one the spec associates with that kind (the exact-match notion of §4.5:
no coercion). -/
def kindMatches : RValue → ValueType → Bool
  | .rString _, .TYPE_STRING => true
  | .rInt32 _, .TYPE_INT => true
  | .rUInt32 _, .TYPE_UINT => true
  | .rBool _, .TYPE_BOOL => true
  | .rDateTime _, .TYPE_DATETIME => true
  | .rBase64 _, .TYPE_BASE64 => true
  | .rInt64 _, .TYPE_LONG => true
  | .rUInt64 _, .TYPE_ULONG => true
  | .rSingle _, .TYPE_FLOAT => true
  | .rDouble _, .TYPE_DOUBLE => true
  | .rByte _, .TYPE_BYTE => true
  | _, _ => false

/-- The three kinds whose payload is an owned string buffer. -/
def isStrLikeType : ValueType → Bool
  | .TYPE_STRING | .TYPE_DATETIME | .TYPE_BASE64 => true
  | _ => false

/-- The zero/empty/false default the loader assigns when a record's
`value` is missing or has the wrong JSON type. -/
def defaultDMValue : ValueType → DMValue
  | .TYPE_STRING | .TYPE_DATETIME | .TYPE_BASE64 => .strVal (some "")
  | .TYPE_INT => .intVal 0
  | .TYPE_UINT => .uintVal 0
  | .TYPE_BOOL => .boolVal false
  | .TYPE_LONG => .longVal 0
  | .TYPE_ULONG => .ulongVal 0
  | .TYPE_FLOAT => .floatVal 0
  | .TYPE_DOUBLE => .doubleVal 0
  | .TYPE_BYTE => .byteVal 0

/-- "The record's `value` field is missing or has the wrong JSON type for
the declared kind": absent, or not a string for a string-like kind, not a
JSON boolean for the bool kind, not a number for a numeric/byte kind. -/
def valueKindMismatch (t : ValueType) : Option CJson → Bool
  | none => true
  | some v =>
    match t with
    | .TYPE_STRING | .TYPE_DATETIME | .TYPE_BASE64 => !(cJSON_IsString v)
    | .TYPE_BOOL => !(cJSON_IsTrue v || cJSON_IsFalse v)
    | _ => !(cJSON_IsNumber v)

/-- "A numeric literal outside the declared integer/byte kind's
accepted range", where the range is the one the C code's double
comparisons accept (`INT64_MAX` and `UINT64_MAX` promote to `2^63` and
`2^64`; the other bounds are exact).  `false` for the non-integer kinds,
which the code does not range-check. -/
def intRangeBad (t : ValueType) (q : ℚ) : Bool :=
  match t with
  | .TYPE_INT => decide (¬ (-(2147483648 : ℚ) ≤ q ∧ q ≤ (2147483647 : ℚ)))
  | .TYPE_UINT => decide (¬ ((0 : ℚ) ≤ q ∧ q ≤ (4294967295 : ℚ)))
  | .TYPE_LONG =>
    decide (¬ (-(9223372036854775808 : ℚ) ≤ q ∧ q ≤ (9223372036854775808 : ℚ)))
  | .TYPE_ULONG => decide (¬ ((0 : ℚ) ≤ q ∧ q ≤ (18446744073709551616 : ℚ)))
  | .TYPE_BYTE => decide (¬ ((0 : ℚ) ≤ q ∧ q ≤ (255 : ℚ)))
  | _ => false

/-- `FLT_MAX`, the largest finite IEEE-754 binary32 value,
`(2 - 2^-23) * 2^127 = 2^128 - 2^104`, as an exact rational. -/
def FLT_MAX : ℚ := 340282346638528859811704183484516925440

/-! ## Shared lemmas about the set/get dispatch -/

theorem setModel_code (allocOk : Bool) (dm : DataModel) (v : RValue) :
    (setModel allocOk dm v).1 = .RBUS_ERROR_SUCCESS ∨
    (setModel allocOk dm v).1 = .RBUS_ERROR_OUT_OF_RESOURCES := by
  cases h : dm.type <;> cases allocOk <;> simp [setModel, h]

theorem setModel_true_code (dm : DataModel) (v : RValue) :
    (setModel true dm v).1 = .RBUS_ERROR_SUCCESS := by
  cases h : dm.type <;> simp [setModel, h]

theorem setModel_name (allocOk : Bool) (dm : DataModel) (v : RValue) :
    (setModel allocOk dm v).2.name = dm.name := by
  cases h : dm.type <;> cases allocOk <;> simp [setModel, h]

theorem setModel_false_str (dm : DataModel) (v : RValue)
    (h : isStrLikeType dm.type = true) :
    setModel false dm v =
      (.RBUS_ERROR_OUT_OF_RESOURCES, { dm with value := .strVal none }) := by
  cases ht : dm.type <;> simp [isStrLikeType, ht] at h <;>
    simp [setModel, ht]

theorem setList_found_code (allocOk : Bool) (n : String) (v : RValue)
    (l : List DataModel) (h : ∃ dm ∈ l, dm.name = n) :
    (setList allocOk n v l).1 = .RBUS_ERROR_SUCCESS ∨
    (setList allocOk n v l).1 = .RBUS_ERROR_OUT_OF_RESOURCES := by
  induction l with
  | nil => simp at h
  | cons dm rest ih =>
    by_cases hn : dm.name == n
    · simpa [setList, hn] using setModel_code allocOk dm v
    · rcases h with ⟨d, hd, hdn⟩
      rcases List.mem_cons.mp hd with rfl | hd
      · simp [hdn] at hn
      · simpa [setList, hn] using ih ⟨d, hd, hdn⟩

theorem setList_found_true_code (n : String) (v : RValue)
    (l : List DataModel) (h : (l.find? (fun d => d.name == n)).isSome) :
    (setList true n v l).1 = .RBUS_ERROR_SUCCESS := by
  induction l with
  | nil => simp [List.find?] at h
  | cons dm rest ih =>
    cases hn : dm.name == n with
    | true => simpa [setList, hn] using setModel_true_code dm v
    | false =>
      simp only [List.find?, hn] at h
      simpa [setList, hn] using ih h

theorem setList_find?_update (allocOk : Bool) (n : String) (v : RValue)
    (l : List DataModel) (dm : DataModel)
    (h : l.find? (fun d => d.name == n) = some dm) :
    (setList allocOk n v l).1 = (setModel allocOk dm v).1 ∧
    (setList allocOk n v l).2.find? (fun d => d.name == n) =
      some (setModel allocOk dm v).2 := by
  induction l with
  | nil => simp [List.find?] at h
  | cons d0 rest ih =>
    cases hn : d0.name == n with
    | true =>
      simp only [List.find?, hn, Option.some.injEq] at h
      subst h
      refine ⟨by simp [setList, hn], ?_⟩
      have hname : ((setModel allocOk d0 v).2.name == n) = true := by
        rw [setModel_name]; exact hn
      simp only [setList, hn, List.find?, hname]
    | false =>
      simp only [List.find?, hn] at h
      obtain ⟨ih1, ih2⟩ := ih h
      refine ⟨by simpa [setList, hn] using ih1, ?_⟩
      simp only [setList, hn, List.find?]
      exact ih2

theorem setList_append_left (allocOk : Bool) (n : String) (v : RValue)
    (l1 l2 : List DataModel) (h : (l1.find? (fun d => d.name == n)).isSome) :
    setList allocOk n v (l1 ++ l2) =
      ((setList allocOk n v l1).1, (setList allocOk n v l1).2 ++ l2) := by
  induction l1 with
  | nil => simp [List.find?] at h
  | cons d0 rest ih =>
    cases hn : d0.name == n with
    | true => simp [setList, hn]
    | false =>
      simp only [List.find?, hn] at h
      simp [setList, hn, ih h]

theorem setList_append_right (allocOk : Bool) (n : String) (v : RValue)
    (l1 l2 : List DataModel) (h : l1.find? (fun d => d.name == n) = none) :
    setList allocOk n v (l1 ++ l2) =
      ((setList allocOk n v l2).1, l1 ++ (setList allocOk n v l2).2) := by
  induction l1 with
  | nil => simp [setList]
  | cons d0 rest ih =>
    cases hn : d0.name == n with
    | true =>
      simp only [List.find?, hn] at h
      exact Option.noConfusion h
    | false =>
      simp only [List.find?, hn] at h
      simp [setList, hn, ih h]

theorem findDataModel_declared (l1 l2 : List DataModel) (n : String) :
    findDataModel l1.length (l1 ++ l2) n = l1.find? (fun d => d.name == n) := by
  induction l1 with
  | nil => simp [findDataModel, List.find?]
  | cons d0 rest ih =>
    cases hn : d0.name == n with
    | true => simp [findDataModel, List.find?, hn]
    | false => simp [findDataModel, List.find?, hn, ih]

theorem findDataModel_setList (allocOk : Bool) (n : String) (v : RValue)
    (fuel : Nat) (l : List DataModel) (dm : DataModel)
    (h : findDataModel fuel l n = some dm) :
    (setList allocOk n v l).1 = (setModel allocOk dm v).1 ∧
    findDataModel fuel (setList allocOk n v l).2 n =
      some (setModel allocOk dm v).2 := by
  induction l generalizing fuel with
  | nil => cases fuel <;> simp [findDataModel] at h
  | cons d0 rest ih =>
    cases fuel with
    | zero => simp [findDataModel] at h
    | succ k =>
      cases hn : d0.name == n with
      | true =>
        simp only [findDataModel, hn, if_true, Option.some.injEq] at h
        subst h
        refine ⟨by simp [setList, hn], ?_⟩
        have hname : ((setModel allocOk d0 v).2.name == n) = true := by
          rw [setModel_name]; exact hn
        simp only [setList, hn, findDataModel, hname, if_true]
      | false =>
        simp only [findDataModel, hn, Bool.false_eq_true, if_false] at h
        obtain ⟨ih1, ih2⟩ := ih k h
        refine ⟨by simpa [setList, hn] using ih1, ?_⟩
        simp only [setList, hn, findDataModel, Bool.false_eq_true, if_false]
        exact ih2

theorem dmToRValue_setModel (dm : DataModel) (v : RValue)
    (hk : kindMatches v dm.type = true)
    (hdt : dm.type ≠ .TYPE_DATETIME) (hb64 : dm.type ≠ .TYPE_BASE64) :
    dmToRValue (setModel true dm v).2 = v := by
  obtain ⟨nm, t, val, g, s⟩ := dm
  cases t <;> cases v <;>
    simp_all [kindMatches, setModel, dmToRValue, rbusValue_ToString,
      rbusValue_GetInt32, rbusValue_GetUInt32, rbusValue_GetBoolean,
      rbusValue_GetInt64, rbusValue_GetUInt64, rbusValue_GetSingle,
      rbusValue_GetDouble, rbusValue_GetByte, DMValue.strv, DMValue.intv,
      DMValue.uintv, DMValue.boolv, DMValue.longv, DMValue.ulongv,
      DMValue.floatv, DMValue.doublev, DMValue.bytev]

/-! ## Shared lemmas about the memory cache -/

theorem update_memory_cache_fresh (c : MemoryCache) (now : Int)
    (q : Option MemInfo) (h : c.last_updated + MEMORY_CACHE_TIMEOUT > now) :
    update_memory_cache c now q = (true, c, false) := by
  simp [update_memory_cache, h]

theorem update_memory_cache_fail (c : MemoryCache) (now : Int)
    (q : Option MemInfo)
    (hstale : ¬ (c.last_updated + MEMORY_CACHE_TIMEOUT > now))
    (hfail : q = none ∨ ∃ m, q = some m ∧ (m.memTotal = 0 ∨ m.memFree = 0)) :
    update_memory_cache c now q = (false, c, true) := by
  rcases hfail with rfl | ⟨m, rfl, hm⟩
  · simp [update_memory_cache, hstale]
  · simp [update_memory_cache, hstale, hm]

theorem get_memory_free_ok (c : MemoryCache) (now : Int) (q : Option MemInfo)
    (v : RValue) (c1 : MemoryCache) (b : Bool)
    (h : get_memory_free c now q = (Except.ok v, c1, b)) :
    v = .rUInt32 (c1.free % 4294967296) := by
  simp only [get_memory_free] at h
  split at h
  · obtain ⟨hv, hc, -⟩ : _ ∧ _ ∧ _ := by
      simpa [Prod.ext_iff] using h
    subst hc
    exact hv.symm
  · simp [Prod.ext_iff] at h

/-! ## The claims -/

/-- C1, amended (the code performs no kind check at all): for every
registered attribute — none has a custom setter — the default set
dispatch never returns a type-mismatch error, whatever the incoming
value's kind: it overwrites the stored value with the incoming value read
under the attribute's declared kind and returns `RBUS_ERROR_SUCCESS`, or
`RBUS_ERROR_OUT_OF_RESOURCES` when the string allocation fails. -/
theorem C1_set_no_kind_check (allocOk : Bool) (reg : Registry)
    (n : String) (v : RValue)
    (h : ∃ dm ∈ reg.models, dm.name = n ∧ dm.setHandler = none) :
    (setHandler allocOk reg n v).1 = .RBUS_ERROR_SUCCESS ∨
    (setHandler allocOk reg n v).1 = .RBUS_ERROR_OUT_OF_RESOURCES := by
  obtain ⟨dm, hmem, hname, -⟩ := h
  simpa [setHandler] using
    setList_found_code allocOk n v reg.models ⟨dm, hmem, hname⟩

/-- C1, witness: the spec's own §8 example — a set with a Bool value on a
UInt32 attribute — returns `RBUS_ERROR_SUCCESS`, not a type mismatch. -/
theorem C1_set_no_kind_check_witness :
    (setHandler true ⟨[⟨"X.Y", .TYPE_UINT, .uintVal 7, none, none⟩], 1⟩
        "X.Y" (.rBool true)).1 = .RBUS_ERROR_SUCCESS ∨
    (setHandler true ⟨[⟨"X.Y", .TYPE_UINT, .uintVal 7, none, none⟩], 1⟩
        "X.Y" (.rBool true)).1 = .RBUS_ERROR_OUT_OF_RESOURCES :=
  C1_set_no_kind_check true _ "X.Y" (.rBool true)
    ⟨⟨"X.Y", .TYPE_UINT, .uintVal 7, none, none⟩, by simp, rfl, rfl⟩

/-- C1, counterexample: a set whose incoming value's kind (UInt32)
differs from the attribute's declared kind (String) returns
`RBUS_ERROR_SUCCESS` — not TypeMismatch — and *does* modify the stored
value (it becomes the incoming value's textual rendering "7"), refuting
both conjuncts of the claim at this input. -/
theorem C1_counterexample :
    kindMatches (.rUInt32 7) ValueType.TYPE_STRING = false ∧
    setHandler true
        ⟨[⟨"X.Y", .TYPE_STRING, .strVal (some "old"), none, none⟩], 1⟩
        "X.Y" (.rUInt32 7) =
      (.RBUS_ERROR_SUCCESS,
        ⟨[⟨"X.Y", .TYPE_STRING, .strVal (some "7"), none, none⟩], 1⟩) ∧
    (⟨[⟨"X.Y", .TYPE_STRING, .strVal (some "7"), none, none⟩], 1⟩ : Registry) ≠
      ⟨[⟨"X.Y", .TYPE_STRING, .strVal (some "old"), none, none⟩], 1⟩ := by
  decide

/-- C2, amended: when the string allocation fails during a set on a
string-kind attribute, the call does report the resource error, but the
attribute is *not* rolled back: its previous payload has already been
released and the entry is left half-updated with a NULL (`none`) string
payload. -/
theorem C2_set_alloc_failure (reg : Registry) (n : String) (v : RValue)
    (dm : DataModel)
    (hfind : reg.models.find? (fun d => d.name == n) = some dm)
    (hstr : isStrLikeType dm.type = true) :
    (setHandler false reg n v).1 = .RBUS_ERROR_OUT_OF_RESOURCES ∧
    (setHandler false reg n v).2.models.find? (fun d => d.name == n) =
      some { dm with value := .strVal none } := by
  obtain ⟨h1, h2⟩ := setList_find?_update false n v reg.models dm hfind
  rw [setModel_false_str dm v hstr] at h1 h2
  exact ⟨by simpa [setHandler] using h1, by simpa [setHandler] using h2⟩

/-- C2, witness for the amended theorem at a concrete datetime-kind
attribute. -/
theorem C2_set_alloc_failure_witness :
    (setHandler false
        ⟨[⟨"A.B", .TYPE_DATETIME, .strVal (some "unknown"), none, none⟩], 1⟩
        "A.B" (.rString "x")).1 = .RBUS_ERROR_OUT_OF_RESOURCES ∧
    (setHandler false
        ⟨[⟨"A.B", .TYPE_DATETIME, .strVal (some "unknown"), none, none⟩], 1⟩
        "A.B" (.rString "x")).2.models.find? (fun d => d.name == "A.B") =
      some ⟨"A.B", .TYPE_DATETIME, .strVal none, none, none⟩ :=
  C2_set_alloc_failure _ "A.B" (.rString "x")
    ⟨"A.B", .TYPE_DATETIME, .strVal (some "unknown"), none, none⟩ rfl rfl

/-- C2, counterexample: with the allocation failing, a set on a
string-kind attribute holding "old" reports the resource error but
leaves the attribute with a NULL payload — the stored value is *not*
"rolled back to its previous payload"; the resulting registry differs
from the original. -/
theorem C2_counterexample :
    setHandler false
        ⟨[⟨"X.Y", .TYPE_STRING, .strVal (some "old"), none, none⟩], 1⟩
        "X.Y" (.rString "new") =
      (.RBUS_ERROR_OUT_OF_RESOURCES,
        ⟨[⟨"X.Y", .TYPE_STRING, .strVal none, none, none⟩], 1⟩) ∧
    (⟨[⟨"X.Y", .TYPE_STRING, .strVal none, none, none⟩], 1⟩ : Registry) ≠
      ⟨[⟨"X.Y", .TYPE_STRING, .strVal (some "old"), none, none⟩], 1⟩ := by
  decide

/-- C3, amended (the TTL comparison is strict): a memory read performed
while the snapshot's age is strictly below the 5-second TTL is served
from the cache; consequently, after any successful read, a second read
issued while that read's snapshot is still strictly within its TTL
window returns the identical figure, leaves the snapshot unchanged, and
performs no OS query. -/
theorem C3_ttl_cache (c : MemoryCache) (t1 t2 : Int) (q1 q2 : Option MemInfo)
    (v1 : RValue) (c1 : MemoryCache) (b1 : Bool)
    (h1 : get_memory_free c t1 q1 = (Except.ok v1, c1, b1))
    (h2 : c1.last_updated + MEMORY_CACHE_TIMEOUT > t2) :
    get_memory_free c1 t2 q2 = (Except.ok v1, c1, false) := by
  have hv := get_memory_free_ok c t1 q1 v1 c1 b1 h1
  subst hv
  simp [get_memory_free, update_memory_cache_fresh c1 t2 q2 h2]

/-- C3, witness: a read at t=10 refreshes the snapshot; a read at t=14
(4 seconds later, within the window) returns the same figure with no
query, even though the OS query is unavailable (`none`) at t=14. -/
theorem C3_ttl_cache_witness :
    get_memory_free ⟨200, 80, 120, 10⟩ 14 none =
      (Except.ok (.rUInt32 80), ⟨200, 80, 120, 10⟩, false) :=
  C3_ttl_cache ⟨100, 50, 50, 0⟩ 10 14 (some ⟨200, 80, 0, 0, 0⟩) none
    (.rUInt32 80) ⟨200, 80, 120, 10⟩ true (by decide) (by decide)

/-- C3, counterexample: at an elapsed age of exactly 5 seconds (≤ TTL,
the claim's boundary) the code *does* perform the OS query and *does*
replace the snapshot: `last_updated + 5 > now` is strict, so "elapsed ≤
TTL returns the cached snapshot unchanged with no OS query" fails at
elapsed = 5. -/
theorem C3_counterexample :
    (5 : Int) - (⟨100, 50, 50, 0⟩ : MemoryCache).last_updated ≤
      MEMORY_CACHE_TIMEOUT ∧
    update_memory_cache ⟨100, 50, 50, 0⟩ 5 (some ⟨200, 80, 0, 0, 0⟩) =
      (true, ⟨200, 80, 120, 5⟩, true) ∧
    (⟨200, 80, 120, 5⟩ : MemoryCache) ≠ ⟨100, 50, 50, 0⟩ := by
  decide

/-- C6 (confirmed): when the snapshot is stale and the OS memory query
fails (the meminfo read fails outright, or yields a zero MemTotal or
MemFree), every memory-attribute read reports the acquisition error
(`RBUS_ERROR_BUS_ERROR`), serves no value, and leaves the previous
snapshot — all three counters and `last_updated` — untouched. -/
theorem C6_query_failure (c : MemoryCache) (now : Int) (q : Option MemInfo)
    (hstale : ¬ (c.last_updated + MEMORY_CACHE_TIMEOUT > now))
    (hfail : q = none ∨ ∃ m, q = some m ∧ (m.memTotal = 0 ∨ m.memFree = 0)) :
    get_memory_free c now q = (Except.error .RBUS_ERROR_BUS_ERROR, c, true) ∧
    get_memory_used c now q = (Except.error .RBUS_ERROR_BUS_ERROR, c, true) ∧
    get_memory_total c now q = (Except.error .RBUS_ERROR_BUS_ERROR, c, true) := by
  have hu := update_memory_cache_fail c now q hstale hfail
  exact ⟨by simp [get_memory_free, hu], by simp [get_memory_used, hu],
    by simp [get_memory_total, hu]⟩

/-- C6, witness: stale snapshot at t=10, meminfo unavailable. -/
theorem C6_query_failure_witness :
    get_memory_free ⟨100, 50, 50, 0⟩ 10 none =
      (Except.error .RBUS_ERROR_BUS_ERROR, ⟨100, 50, 50, 0⟩, true) ∧
    get_memory_used ⟨100, 50, 50, 0⟩ 10 none =
      (Except.error .RBUS_ERROR_BUS_ERROR, ⟨100, 50, 50, 0⟩, true) ∧
    get_memory_total ⟨100, 50, 50, 0⟩ 10 none =
      (Except.error .RBUS_ERROR_BUS_ERROR, ⟨100, 50, 50, 0⟩, true) :=
  C6_query_failure ⟨100, 50, 50, 0⟩ 10 none (by decide) (Or.inl rfl)

/-- C10 (confirmed): a schema whose top-level array is empty fails the
entire load with the "No data models found" exit (`main` returns 1
whenever the load fails), even though every per-record rule is vacuously
satisfied. -/
theorem C10_empty_schema (allocOk : Bool) :
    loadDataModelsFromJson allocOk (.jArray []) = .error .noDataModels := rfl

/-- C4 (confirmed): when a name occurs both among the schema-declared
entries and among the built-ins, both dispatches resolve it to the first
matching entry in registry order, i.e. to the schema-declared prefix:
the get result is exactly the first declared match's value, and the set
leaves the whole built-in suffix untouched, acting on the declared prefix
alone. -/
theorem C4_first_match_wins (allocOk : Bool)
    (declared builtins : List DataModel) (n : String) (v : RValue)
    (hd : (declared.find? (fun d => d.name == n)).isSome)
    (hb : ∃ b ∈ builtins, b.name = n) :
    getHandler ⟨declared ++ builtins, declared.length⟩ n =
      Option.elim (declared.find? (fun d => d.name == n))
        (Except.error .RBUS_ERROR_INVALID_INPUT)
        (fun dm => Except.ok (dmToRValue dm)) ∧
    (setHandler allocOk ⟨declared ++ builtins, declared.length⟩ n v).1 =
      (setList allocOk n v declared).1 ∧
    (setHandler allocOk ⟨declared ++ builtins, declared.length⟩ n v).2.models =
      (setList allocOk n v declared).2 ++ builtins := by
  refine ⟨?_, ?_, ?_⟩
  · cases hfind : declared.find? (fun d => d.name == n) with
    | none => simp [getHandler, findDataModel_declared, hfind]
    | some dm => simp [getHandler, findDataModel_declared, hfind]
  · simp [setHandler, setList_append_left allocOk n v declared builtins hd]
  · simp [setHandler, setList_append_left allocOk n v declared builtins hd]

/-- C4, witness: a schema-declared UInt32 entry shadowing the built-in
string-kind `Device.DeviceInfo.UpTime`: get returns the schema entry's
value and set rewrites the schema entry, leaving all built-ins as they
were. -/
theorem C4_first_match_wins_witness :
    getHandler
        ⟨[⟨"Device.DeviceInfo.UpTime", .TYPE_UINT, .uintVal 7, none, none⟩] ++
          gDataModels, 1⟩ "Device.DeviceInfo.UpTime" =
      Except.ok (.rUInt32 7) ∧
    (setHandler true
        ⟨[⟨"Device.DeviceInfo.UpTime", .TYPE_UINT, .uintVal 7, none, none⟩] ++
          gDataModels, 1⟩ "Device.DeviceInfo.UpTime" (.rUInt32 9)).1 =
      .RBUS_ERROR_SUCCESS ∧
    (setHandler true
        ⟨[⟨"Device.DeviceInfo.UpTime", .TYPE_UINT, .uintVal 7, none, none⟩] ++
          gDataModels, 1⟩ "Device.DeviceInfo.UpTime" (.rUInt32 9)).2.models =
      [⟨"Device.DeviceInfo.UpTime", .TYPE_UINT, .uintVal 9, none, none⟩] ++
        gDataModels := by
  exact C4_first_match_wins true
    [⟨"Device.DeviceInfo.UpTime", .TYPE_UINT, .uintVal 7, none, none⟩]
    gDataModels "Device.DeviceInfo.UpTime" (.rUInt32 9) (by decide) (by decide)

/-- C9 (confirmed): the default get dispatch scans only the declared
prefix while the default set dispatch scans the whole registry, so for a
name that exists only among the built-ins, a get routed through the
default handler reports not-found (`RBUS_ERROR_INVALID_INPUT`) while a
set on the very same name succeeds. -/
theorem C9_get_declared_set_all (declared builtins : List DataModel)
    (n : String) (v : RValue)
    (hnd : declared.find? (fun d => d.name == n) = none)
    (hb : (builtins.find? (fun d => d.name == n)).isSome) :
    getHandler ⟨declared ++ builtins, declared.length⟩ n =
      Except.error .RBUS_ERROR_INVALID_INPUT ∧
    (setHandler true ⟨declared ++ builtins, declared.length⟩ n v).1 =
      .RBUS_ERROR_SUCCESS := by
  constructor
  · simp [getHandler, findDataModel_declared, hnd]
  · simp [setHandler, setList_append_right true n v declared builtins hnd,
      setList_found_true_code n v builtins hb]

/-- C9, witness: with one declared attribute `Device.Example.A`, the
built-in-only name `Device.DeviceInfo.UpTime` is invisible to the default
get but writable through the default set. -/
theorem C9_get_declared_set_all_witness :
    getHandler
        ⟨[⟨"Device.Example.A", .TYPE_INT, .intVal 0, none, none⟩] ++
          gDataModels, 1⟩ "Device.DeviceInfo.UpTime" =
      Except.error .RBUS_ERROR_INVALID_INPUT ∧
    (setHandler true
        ⟨[⟨"Device.Example.A", .TYPE_INT, .intVal 0, none, none⟩] ++
          gDataModels, 1⟩ "Device.DeviceInfo.UpTime" (.rString "5")).1 =
      .RBUS_ERROR_SUCCESS := by
  exact C9_get_declared_set_all
    [⟨"Device.Example.A", .TYPE_INT, .intVal 0, none, none⟩] gDataModels
    "Device.DeviceInfo.UpTime" (.rString "5") (by decide) (by decide)

/-- C7, amended: the set-then-get round trip returns a value equal to the
one written for attributes of the nine kinds other than DateTimeString
and Base64String (for those two, the get renders the stored text back as
a *String*-kind value, so the returned value's kind differs from the
written one). -/
theorem C7_round_trip (reg : Registry) (n : String) (v : RValue)
    (dm : DataModel)
    (hfind : findDataModel reg.numDeclared reg.models n = some dm)
    (hget : dm.getHandler = none) (hset : dm.setHandler = none)
    (hkind : kindMatches v dm.type = true)
    (hdt : dm.type ≠ .TYPE_DATETIME) (hb64 : dm.type ≠ .TYPE_BASE64) :
    getHandler (setHandler true reg n v).2 n = Except.ok v := by
  obtain ⟨-, h2⟩ :=
    findDataModel_setList true n v reg.numDeclared reg.models dm hfind
  simp [getHandler, setHandler, h2, dmToRValue_setModel dm v hkind hdt hb64]

/-- C7, witness: the spec's §8 example — `set("X.Y", UInt32(9999))` then
`get("X.Y")` returns `UInt32(9999)`. -/
theorem C7_round_trip_witness :
    getHandler
      (setHandler true ⟨[⟨"X.Y", .TYPE_UINT, .uintVal 7, none, none⟩], 1⟩
        "X.Y" (.rUInt32 9999)).2 "X.Y" = Except.ok (.rUInt32 9999) :=
  C7_round_trip _ "X.Y" (.rUInt32 9999)
    ⟨"X.Y", .TYPE_UINT, .uintVal 7, none, none⟩
    rfl rfl rfl (by decide) (by decide) (by decide)

/-- C7, counterexample: on a DateTimeString attribute with no custom
handlers, writing a DateTime-kind value and reading it back yields a
*String*-kind value carrying the same text — not a value equal to the
one written — because the get dispatch publishes string-like payloads
through `rbusValue_SetString`. -/
theorem C7_counterexample :
    kindMatches (.rDateTime "2024-02-07T23:52:32") ValueType.TYPE_DATETIME =
      true ∧
    getHandler
        (setHandler true
          ⟨[⟨"D.T", .TYPE_DATETIME, .strVal (some "unknown"), none, none⟩], 1⟩
          "D.T" (.rDateTime "2024-02-07T23:52:32")).2 "D.T" =
      Except.ok (.rString "2024-02-07T23:52:32") ∧
    getHandler
        (setHandler true
          ⟨[⟨"D.T", .TYPE_DATETIME, .strVal (some "unknown"), none, none⟩], 1⟩
          "D.T" (.rDateTime "2024-02-07T23:52:32")).2 "D.T" ≠
      Except.ok (.rDateTime "2024-02-07T23:52:32") := by
  decide

/-- Containing one record that the loader rejects with the out-of-range
diagnostic makes the whole record loop fail (with that diagnostic, or an
earlier record's one). -/
theorem loadItems_mem_error (allocOk : Bool) (items : List CJson)
    (item : CJson) (hm : item ∈ items)
    (he : loadItem allocOk item = .error .outOfRange) :
    ∃ e, loadItems allocOk items = .error e := by
  induction items with
  | nil => simp at hm
  | cons it rest ih =>
    rcases List.mem_cons.mp hm with rfl | hm2
    · exact ⟨.outOfRange, by simp [loadItems, he]⟩
    · cases hit : loadItem allocOk it with
      | error e => exact ⟨e, by simp [loadItems, hit]⟩
      | ok dm =>
        obtain ⟨e, he2⟩ := ih hm2
        exact ⟨e, by simp [loadItems, hit, he2]⟩

/-- C8 (confirmed): a record whose `value` field is missing or has the
wrong JSON type for the declared kind loads without any error and the
attribute is initialised to the kind's zero/empty/false default. -/
theorem C8_value_defaults (item : CJson) (nm : String) (tq : ℚ)
    (t : ValueType)
    (hname : cJSON_GetObjectItem item "name" = some (.jString nm))
    (htype : cJSON_GetObjectItem item "type" = some (.jNumber tq))
    (hrange : ¬ (tq < 0 ∨ 10 < tq))
    (ht : typeOfCode (truncQ tq).toNat = t)
    (hmm : valueKindMismatch t (cJSON_GetObjectItem item "value") = true) :
    loadItem true item =
      .ok ⟨⟨nm.data.take 255⟩, t, defaultDMValue t, none, none⟩ := by
  cases item with
  | jString s => simp [cJSON_GetObjectItem] at hname
  | jNumber q => simp [cJSON_GetObjectItem] at hname
  | jTrue => simp [cJSON_GetObjectItem] at hname
  | jFalse => simp [cJSON_GetObjectItem] at hname
  | jNull => simp [cJSON_GetObjectItem] at hname
  | jArray its => simp [cJSON_GetObjectItem] at hname
  | jObject fields =>
    simp only [loadItem, hname, htype]
    rw [if_neg hrange, ht]
    revert hmm
    generalize cJSON_GetObjectItem (.jObject fields) "value" = vo
    intro hmm
    cases vo with
    | none => cases t <;> simp [loadValue, defaultDMValue, strdupM]
    | some v =>
      cases t <;> cases v <;>
        simp_all [loadValue, valueKindMismatch, defaultDMValue, strdupM,
          cJSON_IsString, cJSON_IsNumber, cJSON_IsTrue, cJSON_IsFalse]

/-- C8, witness: a Bool-kind record whose `value` is a JSON string loads
as the default `false` — not an error. -/
theorem C8_value_defaults_witness :
    loadItem true
      (.jObject [("name", .jString "Device.Example.B"), ("type", .jNumber 3),
                 ("value", .jString "yes")]) =
      .ok ⟨"Device.Example.B", .TYPE_BOOL, .boolVal false, none, none⟩ :=
  C8_value_defaults _ "Device.Example.B" 3 .TYPE_BOOL rfl rfl (by decide)
    rfl rfl

/-- C5, amended: the load-aborting range check exists only for the
integer and byte kinds (Int32, UInt32, Int64, UInt64, Byte), and its
bounds are the C double comparisons' (so Int64/UInt64 accept up to `2^63`
/ `2^64`): a record of such a kind whose numeric literal falls outside
those bounds is rejected with the out-of-range diagnostic, the value is
not clamped, and the whole load fails producing no registry at all.
Float32/Float64 literals are not range-checked (see the
counterexample). -/
theorem C5_int_out_of_range (allocOk : Bool) (items : List CJson)
    (item : CJson) (nm : String) (tq q : ℚ)
    (hm : item ∈ items)
    (hname : cJSON_GetObjectItem item "name" = some (.jString nm))
    (htype : cJSON_GetObjectItem item "type" = some (.jNumber tq))
    (hrange : ¬ (tq < 0 ∨ 10 < tq))
    (hval : cJSON_GetObjectItem item "value" = some (.jNumber q))
    (hbad : intRangeBad (typeOfCode (truncQ tq).toNat) q = true) :
    loadItem allocOk item = .error .outOfRange ∧
    (loadDataModelsFromJson allocOk (.jArray items)).toOption = none := by
  have hitem : loadItem allocOk item = .error .outOfRange := by
    cases item with
    | jString s => simp [cJSON_GetObjectItem] at hname
    | jNumber q2 => simp [cJSON_GetObjectItem] at hname
    | jTrue => simp [cJSON_GetObjectItem] at hname
    | jFalse => simp [cJSON_GetObjectItem] at hname
    | jNull => simp [cJSON_GetObjectItem] at hname
    | jArray its => simp [cJSON_GetObjectItem] at hname
    | jObject fields =>
      simp only [loadItem, hname, htype]
      rw [if_neg hrange, hval]
      revert hbad
      generalize typeOfCode (truncQ tq).toNat = t
      intro hbad
      cases t <;> simp_all [loadValue, intRangeBad] <;>
        exact fun h => hbad.resolve_left (not_lt.mpr h)
  have hne : items.length ≠ 0 := by
    cases items with
    | nil => simp at hm
    | cons a l => simp
  refine ⟨hitem, ?_⟩
  cases allocOk with
  | false => simp [loadDataModelsFromJson, hne, Except.toOption]
  | true =>
    obtain ⟨e, he⟩ := loadItems_mem_error true items item hm hitem
    simp [loadDataModelsFromJson, hne, he, Except.toOption]

/-- C5, witness: a UInt32 record with literal −1 (outside `[0, 2^32−1]`)
is rejected out-of-range and the whole load yields no registry. -/
theorem C5_int_out_of_range_witness :
    loadItem true
      (.jObject [("name", .jString "Device.Example.N"), ("type", .jNumber 2),
                 ("value", .jNumber (-1))]) = .error .outOfRange ∧
    (loadDataModelsFromJson true
      (.jArray [.jObject [("name", .jString "Device.Example.N"),
                          ("type", .jNumber 2),
                          ("value", .jNumber (-1))]])).toOption = none :=
  C5_int_out_of_range true _ _ "Device.Example.N" 2 (-1) (by simp) rfl rfl
    (by decide) rfl (by decide)

/-- C5, counterexample: a Float32 record whose literal `2^128` exceeds
`FLT_MAX = 2^128 − 2^104` — i.e. lies outside the declared kind's
representable range — does *not* fail the load at all: the loader has no
range check for the float kinds, so the registry is produced, refuting
"the entire load fails with an out-of-range configuration error". -/
theorem C5_counterexample :
    FLT_MAX < (340282366920938463463374607431768211456 : ℚ) ∧
    (loadDataModelsFromJson true
      (.jArray [.jObject [("name", .jString "Device.Example.F"),
                          ("type", .jNumber 8),
                          ("value",
                            .jNumber 340282366920938463463374607431768211456)]])
      ).toOption.isSome = true := by
  exact ⟨by decide, rfl⟩
